import Mathlib

/-!
# CloudCore gestion-TI — verification of the compliance-evaluation model

Shallow embedding of the domain entities (Incident, Risk, ContinuityScenario,
KPI) and the evaluators (SLAManager, AvailabilityManager, RecoverySimulator,
GovernanceDashboard) of the repository, with theorems settling the spec's
claims about them.

Python floats are modelled as exact rationals; Python's `round(x, n)`
(round-half-to-even) is modelled by `pyRound`.  Python code that raises
`ZeroDivisionError` on some input is modelled as an `Option`-returning
function that yields `none` exactly on those inputs.
-/

namespace CloudCore

/-- Round a rational to the nearest integer, ties to even (Python `round`). -/
def rhe (x : ℚ) : ℤ :=
  if x - ⌊x⌋ < 1/2 then ⌊x⌋
  else if 1/2 < x - ⌊x⌋ then ⌊x⌋ + 1
  else if ⌊x⌋ % 2 = 0 then ⌊x⌋ else ⌊x⌋ + 1

/-- Python `round(x, n)` on rationals: round half-to-even at `n` decimals. -/
def pyRound (n : ℕ) (x : ℚ) : ℚ := (rhe (x * 10 ^ n) : ℚ) / 10 ^ n

/-! ## domain/incident.py -/

inductive Severity
  | CRITICAL | HIGH | MEDIUM | LOW
  deriving DecidableEq, Repr

/-- `Incident.SLA_HOURS`: SLA resolution ceiling in hours per severity. -/
def SLA_HOURS : Severity → ℚ
  | .CRITICAL => 1
  | .HIGH     => 4
  | .MEDIUM   => 8
  | .LOW      => 24

/-- `Incident.PENALTY_USD_PER_HOUR`: USD penalty per excess hour per severity. -/
def PENALTY_USD_PER_HOUR : Severity → ℚ
  | .CRITICAL => 5000
  | .HIGH     => 2000
  | .MEDIUM   => 500
  | .LOW      => 100

/-- `severity.name` in Python (`Enum.name`). -/
def severityName : Severity → String
  | .CRITICAL => "CRITICAL"
  | .HIGH     => "HIGH"
  | .MEDIUM   => "MEDIUM"
  | .LOW      => "LOW"

inductive IncidentStatus
  | OPEN | IN_PROGRESS | RESOLVED | CLOSED
  deriving DecidableEq, Repr

/-- `Incident`: timestamps are modelled in seconds since an epoch;
`resolved_at` is `none` until `resolve` is called. -/
structure Incident where
  incident_id      : String
  service_name     : String
  severity         : Severity
  incident_type    : String
  team             : String
  clients_affected : ℕ
  status           : IncidentStatus
  created_at       : ℚ
  resolved_at      : Option ℚ
  deriving DecidableEq, Repr

/-- `Incident.resolution_time_hours`: `(resolved_at - created_at)` in hours,
`None` while unresolved. -/
def Incident.resolution_time_hours (i : Incident) : Option ℚ :=
  match i.resolved_at with
  | some r => some ((r - i.created_at) / 3600)
  | none   => none

/-- `Incident.sla_limit_hours`. -/
def Incident.sla_limit_hours (i : Incident) : ℚ :=
  SLA_HOURS i.severity

/-- `Incident.meets_sla`: `False` when unresolved, else `t <= limit`. -/
def Incident.meets_sla (i : Incident) : Bool :=
  match i.resolution_time_hours with
  | none   => false
  | some t => decide (t ≤ i.sla_limit_hours)

/-- `Incident.excess_hours`: `max(0, t - limit)`, `0.0` when unresolved. -/
def Incident.excess_hours (i : Incident) : ℚ :=
  match i.resolution_time_hours with
  | none   => 0
  | some t => max 0 (t - i.sla_limit_hours)

/-- `Incident.penalty_usd`: `round(excess_hours * rate, 2)`. -/
def Incident.penalty_usd (i : Incident) : ℚ :=
  pyRound 2 (i.excess_hours * PENALTY_USD_PER_HOUR i.severity)

/-! ## domain/risk.py -/

inductive RiskLevel
  | LOW | MEDIUM | HIGH | CRITICAL
  deriving DecidableEq, Repr

/-- `Risk.RISK_APPETITE_USD`. -/
def RISK_APPETITE_USD : ℚ := 50000

/-- An entry of `Risk.controls` as built by `add_control`. -/
structure Control where
  name          : String
  effectiveness : ℚ
  deriving DecidableEq, Repr

structure Risk where
  risk_id     : String
  name        : String
  category    : String
  probability : ℚ
  impact_usd  : ℚ
  controls    : List Control
  deriving DecidableEq, Repr

/-- `Risk.inherent_risk_usd = round(probability * impact_usd, 2)`. -/
def Risk.inherent_risk_usd (r : Risk) : ℚ :=
  pyRound 2 (r.probability * r.impact_usd)

/-- `Risk.control_effectiveness`: `0.0` with no controls, else
`round(1 - prod (1 - e_i), 4)`. -/
def Risk.control_effectiveness (r : Risk) : ℚ :=
  if r.controls = [] then 0
  else pyRound 4 (1 - r.controls.foldl (fun remaining c => remaining * (1 - c.effectiveness)) 1)

/-- `Risk.residual_risk_usd = round(inherent * (1 - control_effectiveness), 2)`. -/
def Risk.residual_risk_usd (r : Risk) : ℚ :=
  pyRound 2 (r.inherent_risk_usd * (1 - r.control_effectiveness))

/-- `Risk.risk_level`: bucket the residual risk. -/
def Risk.risk_level (r : Risk) : RiskLevel :=
  let x := r.residual_risk_usd
  if x < 10000 then .LOW
  else if x < 30000 then .MEDIUM
  else if x < 60000 then .HIGH
  else .CRITICAL

/-- `Risk.exceeds_appetite`: residual risk strictly above the appetite. -/
def Risk.exceeds_appetite (r : Risk) : Bool :=
  decide (RISK_APPETITE_USD < r.residual_risk_usd)

/-! ## domain/continuity.py -/

inductive DisruptionType
  | DATABASE_FAILURE | RANSOMWARE | CLOUD_OUTAGE | NETWORK_LOSS | DEPLOY_FAILURE
  deriving DecidableEq, Repr

/-- `ContinuityScenario.COST_PER_HOUR_USD`. -/
def SCENARIO_COST_PER_HOUR_USD : ℚ := 15000

/-- `ContinuityScenario`: `actual_rto_h`/`actual_rpo_h` are `none` until
`simulate` is called. -/
structure ContinuityScenario where
  scenario_id      : String
  disruption_type  : DisruptionType
  probability      : ℚ
  rto_objective_h  : ℚ
  rpo_objective_h  : ℚ
  clients_affected : ℕ
  actual_rto_h     : Option ℚ
  actual_rpo_h     : Option ℚ
  deriving DecidableEq, Repr

/-- `ContinuityScenario.meets_rto`: `False` before simulation. -/
def ContinuityScenario.meets_rto (s : ContinuityScenario) : Bool :=
  match s.actual_rto_h with
  | none   => false
  | some a => decide (a ≤ s.rto_objective_h)

/-- `ContinuityScenario.meets_rpo`: `False` before simulation. -/
def ContinuityScenario.meets_rpo (s : ContinuityScenario) : Bool :=
  match s.actual_rpo_h with
  | none   => false
  | some a => decide (a ≤ s.rpo_objective_h)

/-- `ContinuityScenario.financial_impact_usd`: `0.0` before simulation, else
`round(actual_rto * COST_PER_HOUR, 2)`. -/
def ContinuityScenario.financial_impact_usd (s : ContinuityScenario) : ℚ :=
  match s.actual_rto_h with
  | none   => 0
  | some a => pyRound 2 (a * SCENARIO_COST_PER_HOUR_USD)

/-- `ContinuityScenario.residual_risk_usd = round(probability * impact, 2)`. -/
def ContinuityScenario.residual_risk_usd (s : ContinuityScenario) : ℚ :=
  pyRound 2 (s.probability * s.financial_impact_usd)

/-- `ContinuityScenario.rto_gap_h`: `0.0` before simulation, else
`round(max(0, actual - objective), 2)`. -/
def ContinuityScenario.rto_gap_h (s : ContinuityScenario) : ℚ :=
  match s.actual_rto_h with
  | none   => 0
  | some a => pyRound 2 (max 0 (a - s.rto_objective_h))

/-! ## governance/kpi.py -/

structure KPI where
  name             : String
  value            : ℚ
  threshold        : ℚ
  unit             : String
  framework        : String
  higher_is_better : Bool
  deriving DecidableEq, Repr

/-- `KPI.status`: polarity-aware comparison against the threshold. -/
def KPI.status (k : KPI) : String :=
  if k.higher_is_better then
    if k.threshold ≤ k.value then "OK" else "ALERTA"
  else
    if k.value ≤ k.threshold then "OK" else "ALERTA"

/-! ## governance/cobit_dashboard.py -/

/-- `GovernanceDashboard.MAX_ALERTS_TOLERATED`. -/
def MAX_ALERTS_TOLERATED : ℕ := 1

/-- `GovernanceDashboard.alerts`: the KPIs whose status is `"ALERTA"`. -/
def GovernanceDashboard.alerts (kpis : List KPI) : List KPI :=
  kpis.filter (fun k => k.status = "ALERTA")

/-- `descriptions.get(score, "Inicial")` of `maturity_level`. -/
def maturityDescription (score : ℤ) : String :=
  if score = 5 then "Optimizado"
  else if score = 4 then "Cuantitativamente Gestionado"
  else if score = 3 then "Definido"
  else if score = 2 then "Gestionado"
  else if score = 1 then "Inicial"
  else if score = 0 then "Inexistente"
  else "Inicial"

/-- `GovernanceDashboard.maturity_level`: `ok_count / (len(kpis) or 1)`,
times 5, rounded, mapped to the description table. -/
def GovernanceDashboard.maturity_level (kpis : List KPI) : ℤ × String :=
  let ok_count : ℕ := (kpis.filter (fun k => k.status = "OK")).length
  let total : ℕ := if kpis.length = 0 then 1 else kpis.length
  let score : ℤ := rhe ((ok_count : ℚ) / (total : ℚ) * 5)
  (score, maturityDescription score)

/-! ## management/sla_manager.py -/

/-- An entry of `SLAManager.evaluations` as appended by `evaluate`. -/
structure EvalRecord where
  incident_id : String
  severity    : String
  result      : String
  penalty_usd : ℚ
  deriving DecidableEq, Repr

/-- `SLAManager.evaluate`: the returned verdict together with the updated
`evaluations` list (the only state of `SLAManager`). -/
def SLAManager.evaluate (i : Incident) (evaluations : List EvalRecord) :
    String × List EvalRecord :=
  match i.resolution_time_hours with
  | none   => ("Pendiente", evaluations)
  | some _ =>
    let result := if i.meets_sla then "Cumple SLA" else "Incumple SLA"
    (result, evaluations ++ [⟨i.incident_id, severityName i.severity, result, i.penalty_usd⟩])

/-- The summary dictionary built by `SLAManager.evaluate_batch`. -/
structure BatchSummary where
  total_incidents     : ℕ
  compliant           : ℕ
  non_compliant       : ℕ
  compliance_rate_pct : ℚ
  total_penalty_usd   : ℚ
  sla_status          : String
  deriving DecidableEq, Repr

/-- `SLAManager.evaluate_batch`.  The `compliance_rate_pct` entry guards its
division (`if total else 0`), but the `sla_status` entry computes
`compliant / total` unguarded: with `total = 0` the Python code raises
`ZeroDivisionError`, modelled as `none`. -/
def SLAManager.evaluate_batch (incidents : List Incident)
    (evaluations : List EvalRecord) : Option (BatchSummary × List EvalRecord) :=
  let evaluations := incidents.foldl (fun evs i => (SLAManager.evaluate i evs).2) evaluations
  let total := incidents.length
  let compliant := (incidents.filter (fun i => i.meets_sla)).length
  let total_penalty := (incidents.map (fun i => i.penalty_usd)).sum
  if total = 0 then none
  else
    some ({ total_incidents := total
            compliant := compliant
            non_compliant := total - compliant
            compliance_rate_pct := pyRound 2 ((compliant : ℚ) / (total : ℚ) * 100)
            total_penalty_usd := pyRound 2 total_penalty
            sla_status :=
              if (95 : ℚ) / 100 ≤ (compliant : ℚ) / (total : ℚ) then "CUMPLE"
              else "INCUMPLE" },
          evaluations)

/-! ## management/availability_manager.py -/

/-- `AvailabilityManager.HOURS_PER_MONTH`. -/
def HOURS_PER_MONTH : ℤ := 730

/-- `AvailabilityManager.__init__`: `total_minutes_period or (730 * 60 * 12)`.
Python's `or` substitutes the default exactly for the falsy arguments
`None` and `0`. -/
def AvailabilityManager.init_total_minutes (total_minutes_period : Option ℤ) : ℤ :=
  match total_minutes_period with
  | none   => HOURS_PER_MONTH * 60 * 12
  | some n => if n = 0 then HOURS_PER_MONTH * 60 * 12 else n

/-- `AvailabilityManager.register_downtime`: `downtime_minutes += minutes`. -/
def AvailabilityManager.register_downtime (downtime_minutes minutes : ℚ) : ℚ :=
  downtime_minutes + minutes

/-- `AvailabilityManager.calculate_availability`:
`round((total - downtime) / total * 100, 4)`; `none` models the
`ZeroDivisionError` a zero divisor would raise. -/
def AvailabilityManager.calculate_availability (total_minutes : ℤ)
    (downtime_minutes : ℚ) : Option ℚ :=
  if total_minutes = 0 then none
  else some (pyRound 4 (((total_minutes : ℚ) - downtime_minutes) / (total_minutes : ℚ) * 100))

/-- An entry of `AvailabilityManager.monthly_records` as appended by
`record_monthly_availability`. -/
structure MonthlyRecord where
  month            : String
  uptime_pct       : ℚ
  hours_down       : ℚ
  minutes_down     : ℚ
  meets_sla        : Bool
  financial_impact : ℚ
  deriving DecidableEq, Repr

/-- The summary dictionary built by `AvailabilityManager.annual_summary`. -/
structure AnnualSummary where
  avg_annual_uptime_pct  : ℚ
  months_compliant       : ℕ
  months_non_compliant   : ℕ
  non_compliant_months   : List String
  total_financial_impact : ℚ
  global_status          : String
  deriving DecidableEq, Repr

/-- `AvailabilityManager.annual_summary`: `{}` (modelled `none`) when no
monthly record exists, else the aggregate over `monthly_records`. -/
def AvailabilityManager.annual_summary (monthly_records : List MonthlyRecord)
    (sla_target : ℚ) : Option AnnualSummary :=
  if monthly_records = [] then none
  else
    let avg_uptime := ((monthly_records.map fun r => r.uptime_pct).sum) / (monthly_records.length : ℚ)
    let compliant := monthly_records.filter fun r => r.meets_sla
    let total_cost := ((monthly_records.map fun r => r.financial_impact).sum)
    some { avg_annual_uptime_pct := pyRound 4 avg_uptime
           months_compliant := compliant.length
           months_non_compliant := monthly_records.length - compliant.length
           non_compliant_months := (monthly_records.filter fun r => !r.meets_sla).map fun r => r.month
           total_financial_impact := pyRound 2 total_cost
           global_status := if sla_target ≤ avg_uptime then "CUMPLE" else "REQUIERE_MEJORA" }

/-! ## continuity/recovery_simulator.py -/

/-- The summary dictionary built by `RecoverySimulator.continuity_summary`. -/
structure ContinuitySummary where
  total_scenarios            : ℕ
  rto_compliant              : ℕ
  rto_compliance_pct         : ℚ
  rpo_compliant              : ℕ
  rpo_compliance_pct         : ℚ
  total_financial_impact_usd : ℚ
  total_residual_risk_usd    : ℚ
  critical_scenarios         : List String
  deriving DecidableEq, Repr

/-- `RecoverySimulator.continuity_summary`: `{}` (modelled `none`) when no
scenario was added, else the aggregate over `scenarios`. -/
def RecoverySimulator.continuity_summary (scenarios : List ContinuityScenario) :
    Option ContinuitySummary :=
  if scenarios = [] then none
  else
    let rto_compliant := (scenarios.filter fun s => s.meets_rto).length
    let rpo_compliant := (scenarios.filter fun s => s.meets_rpo).length
    let total := scenarios.length
    let total_impact := (scenarios.map fun s => s.financial_impact_usd).sum
    let total_risk := (scenarios.map fun s => s.residual_risk_usd).sum
    some { total_scenarios := total
           rto_compliant := rto_compliant
           rto_compliance_pct := pyRound 1 ((rto_compliant : ℚ) / (total : ℚ) * 100)
           rpo_compliant := rpo_compliant
           rpo_compliance_pct := pyRound 1 ((rpo_compliant : ℚ) / (total : ℚ) * 100)
           total_financial_impact_usd := pyRound 2 total_impact
           total_residual_risk_usd := pyRound 2 total_risk
           critical_scenarios := (scenarios.filter fun s => !s.meets_rto).map fun s => s.scenario_id }

/-! ## Concrete entities used by the theorems below -/

/-- A risk whose two controls are each 99.9% effective: the combined
effectiveness `1 - 0.001 * 0.001 = 0.999999` rounds (at 4 decimals) to `1`. -/
def overRoundedRisk : Risk :=
  ⟨"R-CEX", "rounding", "c", 1/10, 1000, [⟨"A", 999/1000⟩, ⟨"B", 999/1000⟩]⟩

/-- A risk with two half-effective controls, used to instantiate the amended
control-effectiveness theorem. -/
def twoControlRisk : Risk :=
  ⟨"R-W", "w", "c", 1/10, 1000, [⟨"A", 1/2⟩, ⟨"B", 1/2⟩]⟩

/-- A LOW-severity incident resolved `24.00001` hours after creation
(`86400.036` seconds): it exceeds its 24-hour ceiling by `0.00001` hours,
and the penalty `0.00001 * 100 = 0.001` USD rounds (at 2 decimals) to `0`. -/
def tinyExcessIncident : Incident :=
  ⟨"INC-CEX", "svc", Severity.LOW, "t", "team", 0, IncidentStatus.RESOLVED, 0,
    some (86400036/1000)⟩

/-- A LOW-severity incident resolved after 25 hours (90000 seconds). -/
def lateIncident : Incident :=
  ⟨"INC-L", "svc", Severity.LOW, "t", "team", 0, IncidentStatus.RESOLVED, 0, some 90000⟩

/-- A CRITICAL incident resolved exactly at its 1-hour SLA ceiling. -/
def boundaryIncident : Incident :=
  ⟨"INC-B", "svc", Severity.CRITICAL, "t", "team", 0, IncidentStatus.RESOLVED, 0, some 3600⟩

/-- The spec scenario `Risk(probability=0.15, impact=60000)` with no controls. -/
def uncontrolledRisk : Risk := ⟨"R-41", "a", "c", 3/20, 60000, []⟩

/-- The spec scenario `Risk(probability=0.08, impact=295000)` with one control
of effectiveness `0.55`. -/
def mitigatedRisk : Risk := ⟨"R-42", "b", "c", 2/25, 295000, [⟨"C1", 11/20⟩]⟩

/-- Stated from the claim's words (C7): the OK-ratio — treated as 0 for an
empty KPI list — times 5, rounded, mapped to the fixed maturity label table. -/
def maturity_level_claim (kpis : List KPI) : ℤ × String :=
  let ratio : ℚ :=
    if kpis.length = 0 then 0
    else ((kpis.filter fun k => k.status = "OK").length : ℚ) / (kpis.length : ℚ)
  (rhe (ratio * 5), maturityDescription (rhe (ratio * 5)))

/-! ## Theorems settling the claims -/

/-- C1: `SLAManager.evaluate_batch` on an empty incident list does NOT return a
summary: the `sla_status` entry computes `compliant / total` with `total = 0`
and the Python code raises `ZeroDivisionError` (modelled as `none`), for any
prior state of the evaluations list.  The claim (and the spec's scenario)
expects `compliance_rate_pct = 0` with an else-branch `sla_status` and no
division error, so the code diverges from it on the empty list. -/
theorem evaluate_batch_empty_raises :
    ∀ evs : List EvalRecord, SLAManager.evaluate_batch [] evs = none := by
  intro evs
  rfl

/-- C2 counterexample: with two controls of effectiveness `0.999` (both `< 1`)
the code returns a combined effectiveness of exactly `1` — the 4-decimal
rounding lifts `0.999999` to `1` — contradicting both the claimed equality
with the unrounded complement product and the claimed strict bound `< 1`. -/
theorem control_effectiveness_rounds_to_one_cex :
    overRoundedRisk.control_effectiveness = 1 ∧
    (999 : ℚ)/1000 < 1 ∧
    1 - (1 - (999 : ℚ)/1000) * (1 - (999 : ℚ)/1000) ≠ 1 := by
  refine ⟨?_, by norm_num, by norm_num⟩
  simp [Risk.control_effectiveness, overRoundedRisk]
  norm_num [pyRound, rhe]

/-- C2 amended: for a risk with controls of effectiveness `e1` and `e2`,
`control_effectiveness()` equals `round(1 - (1-e1)*(1-e2), 4)` — the
complement product rounded to 4 decimals, never a simple sum; the unrounded
complement product is strictly greater than either individual effectiveness
and strictly less than 1 when both lie strictly between 0 and 1; with a
single control of effectiveness `0.40` the combined effectiveness is `0.40`. -/
theorem control_effectiveness_amended (r : Risk) (n1 n2 : String) (e1 e2 : ℚ)
    (hc : r.controls = [⟨n1, e1⟩, ⟨n2, e2⟩]) :
    r.control_effectiveness = pyRound 4 (1 - (1 - e1) * (1 - e2)) ∧
    (0 < e1 → e1 < 1 → 0 < e2 → e2 < 1 →
      e1 < 1 - (1 - e1) * (1 - e2) ∧ e2 < 1 - (1 - e1) * (1 - e2) ∧
        1 - (1 - e1) * (1 - e2) < 1) ∧
    (∀ (r' : Risk) (n : String), r'.controls = [⟨n, 2/5⟩] →
      r'.control_effectiveness = 2/5) := by
  refine ⟨?_, ?_, ?_⟩
  · simp [Risk.control_effectiveness, hc]
  · intro h1 h1' h2 h2'
    refine ⟨by nlinarith, by nlinarith, by nlinarith⟩
  · intro r' n hc'
    simp [Risk.control_effectiveness, hc']
    norm_num [pyRound, rhe]

/-- C2 witness: the amended theorem applied to the concrete two-control risk
with `e1 = e2 = 0.5`. -/
theorem control_effectiveness_amended_witness :
    twoControlRisk.control_effectiveness = pyRound 4 (1 - (1 - 1/2) * (1 - 1/2)) :=
  (control_effectiveness_amended twoControlRisk "A" "B" (1/2) (1/2) rfl).1

/-- C3 counterexample: a LOW incident with `0.00001` excess hours has penalty
exactly `0` — `round(0.00001 * 100, 2) = 0` — although the unrounded product
`excess * rate` is nonzero, so `penalty == excess * rate` fails and
"penalty is 0 exactly when excess is 0" fails in the only-if direction. -/
theorem penalty_zero_with_nonzero_excess_cex :
    tinyExcessIncident.excess_hours = 1/100000 ∧
    tinyExcessIncident.penalty_usd = 0 ∧
    tinyExcessIncident.excess_hours * PENALTY_USD_PER_HOUR tinyExcessIncident.severity ≠ 0 := by
  have he : tinyExcessIncident.excess_hours = 1/100000 := by
    simp [Incident.excess_hours, Incident.resolution_time_hours, tinyExcessIncident,
      Incident.sla_limit_hours, SLA_HOURS]
    norm_num
  refine ⟨he, ?_, ?_⟩
  · rw [Incident.penalty_usd, he]
    norm_num [tinyExcessIncident, PENALTY_USD_PER_HOUR, pyRound, rhe]
  · rw [he]
    norm_num [tinyExcessIncident, PENALTY_USD_PER_HOUR]

/-- C3 amended: for every resolved incident, `excess_hours()` equals
`max(0, resolution_hours - sla_ceiling)` and `penalty_usd()` equals
`excess_hours` times the per-severity rate rounded to 2 decimals; a zero
excess always gives a zero penalty (the converse can fail, see the
counterexample). -/
theorem excess_penalty_amended (i : Incident) (t : ℚ)
    (h : i.resolution_time_hours = some t) :
    i.excess_hours = max 0 (t - i.sla_limit_hours) ∧
    i.penalty_usd = pyRound 2 (i.excess_hours * PENALTY_USD_PER_HOUR i.severity) ∧
    (i.excess_hours = 0 → i.penalty_usd = 0) := by
  refine ⟨?_, rfl, fun hz => ?_⟩
  · simp [Incident.excess_hours, h]
  · rw [Incident.penalty_usd, hz]
    norm_num [pyRound, rhe]

/-- C3 witness: the amended theorem applied to a LOW incident resolved after
25 hours. -/
theorem excess_penalty_amended_witness :
    lateIncident.excess_hours = max 0 (25 - lateIncident.sla_limit_hours) ∧
    lateIncident.penalty_usd =
      pyRound 2 (lateIncident.excess_hours * PENALTY_USD_PER_HOUR lateIncident.severity) ∧
    (lateIncident.excess_hours = 0 → lateIncident.penalty_usd = 0) :=
  excess_penalty_amended lateIncident 25 (by
    norm_num [lateIncident, Incident.resolution_time_hours])

/-- C4: the two concrete risk scenarios of the spec.
`Risk(0.15, 60000)`, no controls: inherent `9000.00`, residual `9000.00`,
level Low, does not exceed the appetite.  `Risk(0.08, 295000)` with one
control of effectiveness `0.55`: inherent `23600.00`, residual `10620.00`,
level Medium. -/
theorem risk_concrete_scenarios :
    uncontrolledRisk.inherent_risk_usd = 9000 ∧
    uncontrolledRisk.residual_risk_usd = 9000 ∧
    uncontrolledRisk.risk_level = RiskLevel.LOW ∧
    uncontrolledRisk.exceeds_appetite = false ∧
    mitigatedRisk.inherent_risk_usd = 23600 ∧
    mitigatedRisk.residual_risk_usd = 10620 ∧
    mitigatedRisk.risk_level = RiskLevel.MEDIUM := by
  refine ⟨?_, ?_, ?_, ?_, ?_, ?_, ?_⟩ <;>
    simp [Risk.inherent_risk_usd, Risk.residual_risk_usd, Risk.control_effectiveness,
      Risk.risk_level, Risk.exceeds_appetite, RISK_APPETITE_USD,
      uncontrolledRisk, mitigatedRisk] <;>
    norm_num [pyRound, rhe]

/-- C5: an incident without a resolution timestamp has `meets_sla() = False`
and `resolution_time_hours() = None`, and a scenario that has not been
simulated has `meets_rto() = False` and `meets_rpo() = False` — the gates
evaluate to false instead of erroring, and the unset metric is reported as a
distinguishable `None`. -/
theorem unset_optionals_gate_false :
    ∀ (i : Incident) (s : ContinuityScenario),
      (i.resolved_at = none → i.meets_sla = false ∧ i.resolution_time_hours = none) ∧
      (s.actual_rto_h = none → s.meets_rto = false) ∧
      (s.actual_rpo_h = none → s.meets_rpo = false) := by
  intro i s
  refine ⟨fun hi => ?_, fun hr => ?_, fun hp => ?_⟩
  · simp [Incident.meets_sla, Incident.resolution_time_hours, hi]
  · simp [ContinuityScenario.meets_rto, hr]
  · simp [ContinuityScenario.meets_rpo, hp]

/-- C6: `annual_summary` with no monthly records and `continuity_summary`
with no scenarios both return the distinguishable empty result (`{}`,
modelled `none`) and never reach the divisions by the collection size. -/
theorem empty_aggregations_empty :
    ∀ sla_target : ℚ,
      AvailabilityManager.annual_summary [] sla_target = none ∧
      RecoverySimulator.continuity_summary [] = none := by
  intro t
  exact ⟨rfl, rfl⟩

/-- C7: `maturity_level` equals the claim's formula — `round(ok/total * 5)`
with the OK-ratio treated as `0` on an empty KPI list, mapped to the fixed
0–5 label table — and the empty list yields level `0` ("Inexistente")
without dividing by zero. -/
theorem maturity_level_matches_spec :
    ∀ kpis : List KPI,
      GovernanceDashboard.maturity_level kpis = maturity_level_claim kpis ∧
      GovernanceDashboard.maturity_level [] = (0, "Inexistente") := by
  intro kpis
  constructor
  · cases kpis with
    | nil =>
      simp [GovernanceDashboard.maturity_level, maturity_level_claim, rhe, maturityDescription]
    | cons k ks =>
      simp [GovernanceDashboard.maturity_level, maturity_level_claim]
  · simp [GovernanceDashboard.maturity_level, maturityDescription, rhe]

/-- C8: an incident whose resolution duration equals its SLA ceiling exactly
meets the SLA — the comparison is `<=`, not strict. -/
theorem meets_sla_at_exact_ceiling (i : Incident)
    (h : i.resolution_time_hours = some i.sla_limit_hours) :
    i.meets_sla = true := by
  simp [Incident.meets_sla, h]

/-- C8 witness: a CRITICAL incident resolved in exactly 1 hour meets its SLA. -/
theorem meets_sla_at_exact_ceiling_witness : boundaryIncident.meets_sla = true :=
  meets_sla_at_exact_ceiling boundaryIncident (by
    norm_num [boundaryIncident, Incident.resolution_time_hours, Incident.sla_limit_hours,
      SLA_HOURS])

/-- C9 counterexample: the constructor argument `-1` is truthy in Python, so
no default is substituted and `total_minutes = -1`, which is not strictly
positive — refuting "total_minutes is always strictly positive" for every
constructor argument. -/
theorem negative_period_cex :
    AvailabilityManager.init_total_minutes (some (-1)) = -1 ∧
    ¬ (0 < AvailabilityManager.init_total_minutes (some (-1))) := by
  constructor <;> simp [AvailabilityManager.init_total_minutes]

/-- C9 amended: the default period `730 * 60 * 12 = 525600` is substituted
exactly when `total_minutes_period` is `None` or `0`, so `total_minutes` is
never zero and `calculate_availability` never divides by zero for any
sequence of `register_downtime` calls; `total_minutes` is strictly positive
whenever the argument is `None` or nonnegative (a negative argument is kept
as given). -/
theorem availability_divisor_amended :
    ∀ (a : Option ℤ) (downs : List ℚ),
      AvailabilityManager.init_total_minutes a ≠ 0 ∧
      AvailabilityManager.calculate_availability (AvailabilityManager.init_total_minutes a)
        (downs.foldl AvailabilityManager.register_downtime 0) ≠ none ∧
      ((a = none ∨ ∃ n : ℤ, a = some n ∧ 0 ≤ n) →
        0 < AvailabilityManager.init_total_minutes a) := by
  intro a downs
  have hnz : AvailabilityManager.init_total_minutes a ≠ 0 := by
    cases a with
    | none => simp [AvailabilityManager.init_total_minutes, HOURS_PER_MONTH]
    | some n =>
      by_cases hn : n = 0 <;>
        simp [AvailabilityManager.init_total_minutes, HOURS_PER_MONTH, hn]
  refine ⟨hnz, ?_, ?_⟩
  · simp [AvailabilityManager.calculate_availability, hnz]
  · rintro (rfl | ⟨n, rfl, hn⟩)
    · simp [AvailabilityManager.init_total_minutes, HOURS_PER_MONTH]
    · by_cases h0 : n = 0
      · simp [AvailabilityManager.init_total_minutes, HOURS_PER_MONTH, h0]
      · simp [AvailabilityManager.init_total_minutes, h0]
        omega

/-- C10: `SLAManager.evaluate` on an unresolved incident returns "Pendiente"
and leaves the evaluations list unchanged; on a resolved incident it returns
the verdict and appends exactly the record
`{incident_id, severity, result, penalty_usd}` — a record is appended if and
only if the incident has a resolution time. -/
theorem evaluate_append_iff_resolved :
    ∀ (i : Incident) (evs : List EvalRecord),
      (i.resolution_time_hours = none → SLAManager.evaluate i evs = ("Pendiente", evs)) ∧
      (∀ t, i.resolution_time_hours = some t →
        SLAManager.evaluate i evs =
          ((if i.meets_sla then "Cumple SLA" else "Incumple SLA"),
            evs ++ [⟨i.incident_id, severityName i.severity,
              (if i.meets_sla then "Cumple SLA" else "Incumple SLA"), i.penalty_usd⟩])) ∧
      ((SLAManager.evaluate i evs).2 =
          evs ++ [⟨i.incident_id, severityName i.severity,
            (SLAManager.evaluate i evs).1, i.penalty_usd⟩] ↔
        (i.resolution_time_hours).isSome) := by
  intro i evs
  refine ⟨fun h => ?_, fun t ht => ?_, ?_⟩
  · simp [SLAManager.evaluate, h]
  · simp [SLAManager.evaluate, ht]
  · cases h : i.resolution_time_hours with
    | none =>
      simp [SLAManager.evaluate, h]
    | some t =>
      simp [SLAManager.evaluate, h]

end CloudCore
